import Mathlib

/-
Verification of the multi-source location estimation engine.

The JavaScript source (src/services/UserInfoService.js) is shallowly
embedded as follows: JS numbers become exact rationals where the code is
purely arithmetical (scorer, aggregator, stealth blender, fingerprint
confidence) and reals where the code uses trigonometry (movement
analyzer); JS strings become Lean String values, except the IP address
which is modelled as a list of characters so that textual facts such as
startsWith can be reasoned about generically; absent JS fields become
Option; JS truthiness of a number is being nonzero, of a string being
nonempty.  Math.round x is the floor of x + 1/2 (JS rounds half towards
positive infinity), and the remainder operator truncates towards zero.
-/

/-! ## Result Scorer and Provider Aggregator -/

/-- A normalized provider location record (the shape produced by the
getLocationFrom* helpers and consumed by scoreGeolocationResult). -/
structure GeoResult where
  country : Option String
  region : Option String
  city : Option String
  timezone : Option String
  isp : Option String
  latitude : Option ℚ
  longitude : Option ℚ
  source : String
deriving DecidableEq

/-- JS truthiness of an optional numeric field: present and nonzero. -/
def truthyNum (v : Option ℚ) : Bool :=
  match v with
  | none => false
  | some x => x != 0

/-- The test `field && field !== 'Unknown'` of the source: the string is
present, nonempty and not the literal marker Unknown. -/
def knownField (v : Option String) : Bool :=
  match v with
  | none => false
  | some s => s != "" && s != "Unknown"

/-- scoreGeolocationResult: completeness score of a provider record. -/
def scoreGeolocationResult (r : GeoResult) : ℤ :=
  (if knownField r.country then 1 else 0)
  + (if knownField r.region then 1 else 0)
  + (if knownField r.city then 1 else 0)
  + (if truthyNum r.latitude && truthyNum r.longitude then 3 else 0)
  + (if knownField r.timezone then 1 else 0)
  + (if knownField r.isp then 1 else 0)

/-- The canonical Unknown fallback record of extractPreciseGeolocation. -/
def unknownRecord : GeoResult :=
  { country := some "Unknown", region := some "Unknown", city := some "Unknown",
    timezone := some "Unknown", isp := some "Unknown",
    latitude := none, longitude := none, source := "none" }

/-- The fixed Local record synthesized for loopback/private addresses. -/
def localRecord : GeoResult :=
  { country := some "Local", region := some "Local", city := some "Local",
    timezone := some "Local", isp := some "Local Network",
    latitude := none, longitude := none, source := "local" }

/-- The selection loop of extractPreciseGeolocation over the settled
provider results (a none entry is a rejected promise or a null value). -/
def selGo : List (Option GeoResult) → Option GeoResult → ℤ → Option GeoResult
  | [], best, _ => best
  | none :: rest, best, bestScore => selGo rest best bestScore
  | some v :: rest, best, bestScore =>
      if bestScore < scoreGeolocationResult v then
        selGo rest (some v) (scoreGeolocationResult v)
      else
        selGo rest best bestScore

/-- The same loop restricted to the fulfilled, non-null records. -/
def selGoR : List GeoResult → Option GeoResult → ℤ → Option GeoResult
  | [], best, _ => best
  | v :: rest, best, bestScore =>
      if bestScore < scoreGeolocationResult v then
        selGoR rest (some v) (scoreGeolocationResult v)
      else
        selGoR rest best bestScore

/-- The fulfilled non-null provider records, in call-registration order. -/
def completedRecords (rs : List (Option GeoResult)) : List GeoResult :=
  rs.filterMap id

/-- Running maximum of completeness scores, seeded with s. -/
def maxFold (s : ℤ) (l : List GeoResult) : ℤ :=
  l.foldl (fun m r => max m (scoreGeolocationResult r)) s

/-- The highest completeness score among the completed records, seeded
with the loop's initial bestScore of 0. -/
def maxScoreOf (rs : List (Option GeoResult)) : ℤ :=
  maxFold 0 (completedRecords rs)

/-- The record selected by the aggregator loop, with the Unknown
fallback when no record was ever selected. -/
def selectBest (rs : List (Option GeoResult)) : GeoResult :=
  (selGo rs none 0).getD unknownRecord

/-- The loopback/private test of extractPreciseGeolocation:
ip === 127.0.0.1 or ::1, or ip starts with 192.168. or 10. -/
def listStartsWith : List Char → List Char → Bool
  | [], _ => true
  | _ :: _, [] => false
  | p :: ps, c :: cs => p == c && listStartsWith ps cs

/-- isLocalIp: the guard at the top of extractPreciseGeolocation. -/
def isLocalIp (ip : List Char) : Bool :=
  ip == "127.0.0.1".toList || ip == "::1".toList
    || listStartsWith "192.168.".toList ip || listStartsWith "10.".toList ip

/-- extractPreciseGeolocation: given the textual IP and the settled
provider results, return the chosen record together with a flag saying
whether the providers were consulted at all (false on the early local
return, mirroring that the four provider calls are never issued). -/
def extractPreciseGeolocation (ip : List Char) (providers : List (Option GeoResult)) :
    GeoResult × Bool :=
  if isLocalIp ip then (localRecord, false) else (selectBest providers, true)

/-- Decimal digit characters of a natural number. -/
def natChars (n : ℕ) : List Char :=
  Nat.toDigits 10 n

/-- The canonical dotted-quad spelling of an IPv4 address. -/
def ipv4 (a b c d : ℕ) : List Char :=
  natChars a ++ '.' :: (natChars b ++ '.' :: (natChars c ++ '.' :: natChars d))

/-! ## Aggregator selection lemmas -/

theorem maxFold_cons (s : ℤ) (r : GeoResult) (t : List GeoResult) :
    maxFold s (r :: t) = maxFold (max s (scoreGeolocationResult r)) t := rfl

theorem le_maxFold (s : ℤ) (l : List GeoResult) : s ≤ maxFold s l := by
  induction l generalizing s with
  | nil => exact le_refl s
  | cons r t ih =>
      calc s ≤ max s (scoreGeolocationResult r) := le_max_left _ _
        _ ≤ maxFold (max s (scoreGeolocationResult r)) t := ih _
        _ = maxFold s (r :: t) := (maxFold_cons _ _ _).symm

theorem score_le_maxFold (s : ℤ) (l : List GeoResult) (x : GeoResult) (hx : x ∈ l) :
    scoreGeolocationResult x ≤ maxFold s l := by
  induction l generalizing s with
  | nil => cases hx
  | cons r t ih =>
      rw [maxFold_cons]
      rcases List.mem_cons.1 hx with h | h
      · subst h
        exact le_trans (le_max_right _ _) (le_maxFold _ _)
      · exact ih _ h

theorem maxFold_attained (s : ℤ) (l : List GeoResult) :
    maxFold s l = s ∨ ∃ x ∈ l, maxFold s l = scoreGeolocationResult x := by
  induction l generalizing s with
  | nil => exact Or.inl rfl
  | cons r t ih =>
      rw [maxFold_cons]
      rcases ih (max s (scoreGeolocationResult r)) with h | ⟨x, hx, hfx⟩
      · rcases max_cases s (scoreGeolocationResult r) with ⟨he, _⟩ | ⟨he, _⟩
        · exact Or.inl (h.trans he)
        · exact Or.inr ⟨r, List.mem_cons_self _ _, h.trans he⟩
      · exact Or.inr ⟨x, List.mem_cons_of_mem _ hx, hfx⟩

theorem selGoR_const (l : List GeoResult) (best : Option GeoResult) (s : ℤ)
    (h : ∀ x ∈ l, scoreGeolocationResult x ≤ s) : selGoR l best s = best := by
  induction l with
  | nil => rfl
  | cons r t ih =>
      have hr : ¬ s < scoreGeolocationResult r :=
        not_lt.2 (h r (List.mem_cons_self _ _))
      simp only [selGoR, if_neg hr]
      exact ih (fun x hx => h x (List.mem_cons_of_mem _ hx))

theorem selGoR_eq_find (l : List GeoResult) (best : Option GeoResult) (s : ℤ)
    (h : s < maxFold s l) :
    selGoR l best s = l.find? (fun r => scoreGeolocationResult r == maxFold s l) := by
  induction l generalizing best s with
  | nil => exact absurd h (lt_irrefl s)
  | cons r t ih =>
      rw [maxFold_cons] at h ⊢
      by_cases hrs : s < scoreGeolocationResult r
      · have hmax : max s (scoreGeolocationResult r) = scoreGeolocationResult r :=
          max_eq_right hrs.le
        rw [hmax] at h ⊢
        simp only [selGoR, if_pos hrs]
        by_cases hM : scoreGeolocationResult r < maxFold (scoreGeolocationResult r) t
        · rw [ih _ _ hM]
          have hne : ¬ (scoreGeolocationResult r == maxFold (scoreGeolocationResult r) t) = true := by
            simp only [beq_iff_eq]
            exact ne_of_lt hM
          exact (List.find?_cons_of_neg t hne).symm
        · have heq : maxFold (scoreGeolocationResult r) t = scoreGeolocationResult r :=
            le_antisymm (not_lt.1 hM) (le_maxFold _ _)
          have hall : ∀ x ∈ t, scoreGeolocationResult x ≤ scoreGeolocationResult r :=
            fun x hx => heq ▸ score_le_maxFold _ _ _ hx
          rw [selGoR_const t (some r) _ hall]
          have hpr : (scoreGeolocationResult r == maxFold (scoreGeolocationResult r) t) = true := by
            simp only [beq_iff_eq]
            exact heq.symm
          exact (List.find?_cons_of_pos t hpr).symm
      · have hmax : max s (scoreGeolocationResult r) = s :=
          max_eq_left (not_lt.1 hrs)
        rw [hmax] at h ⊢
        simp only [selGoR, if_neg hrs]
        rw [ih _ _ h]
        have hne : ¬ (scoreGeolocationResult r == maxFold s t) = true := by
          simp only [beq_iff_eq]
          exact ne_of_lt (lt_of_le_of_lt (not_lt.1 hrs) h)
        exact (List.find?_cons_of_neg t hne).symm

theorem selGo_eq_selGoR (rs : List (Option GeoResult)) (best : Option GeoResult) (s : ℤ) :
    selGo rs best s = selGoR (completedRecords rs) best s := by
  induction rs generalizing best s with
  | nil => rfl
  | cons a t ih =>
      cases a with
      | none =>
          simp only [selGo, completedRecords, List.filterMap_cons]
          exact ih best s
      | some v =>
          simp only [selGo, completedRecords, List.filterMap_cons, selGoR]
          by_cases hv : s < scoreGeolocationResult v
          · rw [if_pos hv, if_pos hv]
            exact ih _ _
          · rw [if_neg hv, if_neg hv]
            exact ih _ _

/-! ## Scorer: concrete records -/

/-- A record with every descriptive field known and both coordinates
present, the latitude being the equator value 0. -/
def fullRecordZeroLat : GeoResult :=
  { country := some "United States", region := some "California",
    city := some "San Francisco", timezone := some "America/Los_Angeles",
    isp := some "Comcast", latitude := some 0, longitude := some 5,
    source := "ipapi.co" }

/-- A record with every descriptive field known and both coordinates
present and nonzero. -/
def fullRecordSeven : GeoResult :=
  { country := some "United States", region := some "California",
    city := some "San Francisco", timezone := some "America/Los_Angeles",
    isp := some "Comcast", latitude := some 37, longitude := some (-122),
    source := "ipinfo.io" }

/-- Claim C3, counterexample: the six scoring contributions add up to
1+1+1+3+1+1 = 8, so a record with every field known and both
coordinates nonzero scores 8, outside the claimed range [0,7] and not
the claimed 7; and a full record whose latitude is the equator value 0
scores 5 rather than 7, because the source tests the coordinates with
JS truthiness and the number 0 is falsy. -/
theorem score_full_record_claim_false :
    scoreGeolocationResult fullRecordSeven = 8 ∧
    scoreGeolocationResult fullRecordZeroLat ≠ 7 := by decide

/-- Claim C3 (amended): the score always lies in [0, 8], and a record
whose descriptive fields are all known and whose coordinates are both
present and nonzero scores exactly 8. -/
theorem scoreGeolocationResult_amended (r : GeoResult) :
    (0 ≤ scoreGeolocationResult r ∧ scoreGeolocationResult r ≤ 8) ∧
    ((knownField r.country ∧ knownField r.region ∧ knownField r.city ∧
      truthyNum r.latitude ∧ truthyNum r.longitude ∧
      knownField r.timezone ∧ knownField r.isp) →
        scoreGeolocationResult r = 8) := by
  constructor
  · unfold scoreGeolocationResult
    split_ifs <;> omega
  · rintro ⟨h1, h2, h3, h4, h5, h6, h7⟩
    unfold scoreGeolocationResult
    rw [h1, h2, h3, h4, h5, h6, h7]
    norm_num

/-- Witness for the amended C3 theorem at a concrete record. -/
theorem scoreGeolocationResult_amended_witness :
    scoreGeolocationResult fullRecordSeven = 8 :=
  (scoreGeolocationResult_amended fullRecordSeven).2 (by decide)

/-! ## Aggregator: selection theorems -/

/-- A completed provider record whose completeness score is 0. -/
def zeroScoreRecord : GeoResult :=
  { country := some "Unknown", region := some "Unknown", city := some "Unknown",
    timezone := some "Unknown", isp := some "Unknown",
    latitude := none, longitude := none, source := "ipapi.co" }

/-- Claim C4, counterexample: over the provider-result list containing
exactly one completed record whose completeness score is 0, the
selection does not return that record (the record of strictly highest
score, as the claim demands for every list); it returns the canonical
Unknown fallback instead, because the loop only takes a record whose
score strictly exceeds the initial best score of 0. -/
theorem aggregator_select_claim_false :
    selectBest [some zeroScoreRecord] ≠ zeroScoreRecord := by decide

/-- Claim C4 (amended): selection is deterministic, and whenever some
completed record has a nonzero completeness score, the selected record
is the first completed record, in call-registration order, attaining
the maximal score. -/
theorem selectBest_amended (rs : List (Option GeoResult)) (h : 0 < maxScoreOf rs) :
    selectBest rs = selectBest rs ∧
    some (selectBest rs) =
      (completedRecords rs).find?
        (fun r => scoreGeolocationResult r == maxScoreOf rs) := by
  refine ⟨rfl, ?_⟩
  have hsel : selGo rs none 0 =
      (completedRecords rs).find?
        (fun r => scoreGeolocationResult r == maxScoreOf rs) := by
    rw [selGo_eq_selGoR]
    exact selGoR_eq_find _ none 0 h
  have hex : ∃ x ∈ completedRecords rs,
      (fun r => scoreGeolocationResult r == maxScoreOf rs) x = true := by
    rcases maxFold_attained 0 (completedRecords rs) with h0 | ⟨x, hx, hfx⟩
    · rw [maxScoreOf] at h
      omega
    · exact ⟨x, hx, by simp only [beq_iff_eq]; exact hfx.symm⟩
  obtain ⟨v, hv⟩ := Option.isSome_iff_exists.1 (List.find?_isSome.2 hex)
  rw [selectBest, hsel, hv]
  rfl

/-- Witness for the amended C4 theorem on a concrete result list. -/
theorem selectBest_amended_witness :
    0 < maxScoreOf [none, some zeroScoreRecord, some fullRecordSeven, some fullRecordZeroLat] ∧
    (selectBest [none, some zeroScoreRecord, some fullRecordSeven, some fullRecordZeroLat] =
        selectBest [none, some zeroScoreRecord, some fullRecordSeven, some fullRecordZeroLat] ∧
      some (selectBest [none, some zeroScoreRecord, some fullRecordSeven, some fullRecordZeroLat]) =
        (completedRecords [none, some zeroScoreRecord, some fullRecordSeven, some fullRecordZeroLat]).find?
          (fun r => scoreGeolocationResult r ==
            maxScoreOf [none, some zeroScoreRecord, some fullRecordSeven, some fullRecordZeroLat])) :=
  ⟨by decide,
    selectBest_amended [none, some zeroScoreRecord, some fullRecordSeven, some fullRecordZeroLat]
      (by decide)⟩

/-- Claim C10: when every completed provider record scores 0, the
aggregator returns the canonical Unknown record with source marker
none, the same fallback used when no provider returns a result. -/
theorem aggregator_all_zero_unknown (rs : List (Option GeoResult))
    (h : ∀ r ∈ completedRecords rs, scoreGeolocationResult r = 0) :
    selectBest rs = unknownRecord ∧ unknownRecord.source = "none" ∧
      selectBest [] = unknownRecord := by
  refine ⟨?_, rfl, rfl⟩
  rw [selectBest, selGo_eq_selGoR, selGoR_const _ _ _ (fun x hx => (h x hx).le)]
  rfl

/-- Witness for C10 on a concrete result list. -/
theorem aggregator_all_zero_unknown_witness :
    (∀ r ∈ completedRecords [none, some zeroScoreRecord], scoreGeolocationResult r = 0) ∧
    (selectBest [none, some zeroScoreRecord] = unknownRecord ∧ unknownRecord.source = "none" ∧
      selectBest [] = unknownRecord) :=
  ⟨by decide, aggregator_all_zero_unknown [none, some zeroScoreRecord] (by decide)⟩

/-! ## Aggregator: the local/private bypass -/

theorem listStartsWith_self_append (p rest : List Char) :
    listStartsWith p (p ++ rest) = true := by
  induction p with
  | nil => rfl
  | cons a ps ih => simp [listStartsWith, ih]

theorem ipv4_ten_split (b c d : ℕ) :
    ipv4 10 b c d =
      "10.".toList ++ (natChars b ++ '.' :: (natChars c ++ '.' :: natChars d)) := by
  have h10 : natChars 10 = ['1', '0'] := by decide
  rw [ipv4, h10]
  rfl

theorem ipv4_private16_split (c d : ℕ) :
    ipv4 192 168 c d = "192.168.".toList ++ (natChars c ++ '.' :: natChars d) := by
  have h192 : natChars 192 = ['1', '9', '2'] := by decide
  have h168 : natChars 168 = ['1', '6', '8'] := by decide
  rw [ipv4, h192, h168]
  rfl

/-- Claim C5: loopback and private addresses (127.0.0.1, ::1, any
dotted-quad in 10.0.0.0/8 or 192.168.0.0/16) bypass the providers: the
result is the fixed Local record with null coordinates and no provider
call is made, whatever the providers would have answered. -/
theorem aggregator_local_bypass (b c d e f : ℕ) (providers : List (Option GeoResult))
    (hb : b ≤ 255) (hc : c ≤ 255) (hd : d ≤ 255) (he : e ≤ 255) (hf : f ≤ 255) :
    extractPreciseGeolocation (ipv4 10 b c d) providers = (localRecord, false) ∧
    extractPreciseGeolocation (ipv4 192 168 e f) providers = (localRecord, false) ∧
    extractPreciseGeolocation "127.0.0.1".toList providers = (localRecord, false) ∧
    extractPreciseGeolocation "::1".toList providers = (localRecord, false) ∧
    localRecord.latitude = none ∧ localRecord.longitude = none := by
  refine ⟨?_, ?_, ?_, ?_, rfl, rfl⟩
  · have hpre := listStartsWith_self_append "10.".toList
      (natChars b ++ '.' :: (natChars c ++ '.' :: natChars d))
    rw [extractPreciseGeolocation, if_pos]
    rw [isLocalIp, ipv4_ten_split, hpre]
    simp
  · have hpre := listStartsWith_self_append "192.168.".toList
      (natChars e ++ '.' :: natChars f)
    rw [extractPreciseGeolocation, if_pos]
    rw [isLocalIp, ipv4_private16_split, hpre]
    simp
  · rw [extractPreciseGeolocation, if_pos]
    decide
  · rw [extractPreciseGeolocation, if_pos]
    decide

/-- Witness for C5 at concrete private addresses. -/
theorem aggregator_local_bypass_witness :
    (0:ℕ) ≤ 255 ∧
    (extractPreciseGeolocation (ipv4 10 0 0 1) [some fullRecordSeven] = (localRecord, false) ∧
      extractPreciseGeolocation (ipv4 192 168 1 5) [some fullRecordSeven] = (localRecord, false) ∧
      extractPreciseGeolocation "127.0.0.1".toList [some fullRecordSeven] = (localRecord, false) ∧
      extractPreciseGeolocation "::1".toList [some fullRecordSeven] = (localRecord, false) ∧
      localRecord.latitude = none ∧ localRecord.longitude = none) :=
  ⟨by decide,
    aggregator_local_bypass 0 0 1 1 5 [some fullRecordSeven]
      (by decide) (by decide) (by decide) (by decide) (by decide)⟩

/-! ## Stealth Location Blender -/

/-- The sparse location carried by a signal estimate. -/
structure EstLocation where
  latitude : Option ℚ
  longitude : Option ℚ
  city : Option String
  region : Option String
  country : Option String
deriving DecidableEq

/-- One signal estimator output (algorithm name, sparse location and a
confidence value), the element type of the blender's input list. -/
structure LocationEstimation where
  algorithm : String
  location : Option EstLocation
  confidence : ℚ
deriving DecidableEq

/-- The guard `estimation.location && estimation.location.latitude &&
estimation.location.longitude` of the blender loop: the location object
exists and both coordinates are present and nonzero (JS truthiness). -/
def hasCoordinates (e : LocationEstimation) : Bool :=
  match e.location with
  | none => false
  | some l => truthyNum l.latitude && truthyNum l.longitude

/-- The latitude read by the loop body (0 stands for the absent case,
which the guard excludes). -/
def latValue (e : LocationEstimation) : ℚ :=
  match e.location with
  | some l => l.latitude.getD 0
  | none => 0

/-- The longitude read by the loop body. -/
def lonValue (e : LocationEstimation) : ℚ :=
  match e.location with
  | some l => l.longitude.getD 0
  | none => 0

/-- The mutable state of the blender loop. -/
structure BlendAcc where
  totalWeight : ℚ
  weightedLat : ℚ
  weightedLon : ℚ
  totalConfidence : ℚ
  bestEstimation : Option LocationEstimation

/-- One iteration of the calculateStealthLocation loop. -/
def blendStep (acc : BlendAcc) (e : LocationEstimation) : BlendAcc :=
  let w := e.confidence / 100
  let acc1 : BlendAcc :=
    { acc with totalWeight := acc.totalWeight + w,
               totalConfidence := acc.totalConfidence + e.confidence }
  if hasCoordinates e then
    { acc1 with
        weightedLat := acc1.weightedLat + latValue e * w,
        weightedLon := acc1.weightedLon + lonValue e * w,
        bestEstimation :=
          match acc1.bestEstimation with
          | none => some e
          | some b => if b.confidence < e.confidence then some e else some b }
  else acc1

/-- The blended stealth estimate returned by calculateStealthLocation. -/
structure StealthResult where
  latitude : Option ℚ
  longitude : Option ℚ
  city : Option String
  region : Option String
  country : Option String
  confidence : ℚ
  source : String
deriving DecidableEq

/-- calculateStealthLocation: fold the loop over the estimations, then
return the weighted coordinate (confidence capped at 90) when
totalWeight, weightedLat and weightedLon are all truthy, else spread
the best coordinate-bearing estimation (capped at 75), else the general
area placeholder (capped at 50). -/
def calculateStealthLocation (estimations : List LocationEstimation) : StealthResult :=
  let acc := estimations.foldl blendStep ⟨0, 0, 0, 0, none⟩
  let averageConfidence := acc.totalConfidence / (estimations.length : ℚ)
  if 0 < acc.totalWeight ∧ acc.weightedLat ≠ 0 ∧ acc.weightedLon ≠ 0 then
    { latitude := some (acc.weightedLat / acc.totalWeight),
      longitude := some (acc.weightedLon / acc.totalWeight),
      city := none, region := none, country := none,
      confidence := min averageConfidence 90,
      source := "Multi-algorithm stealth estimation" }
  else
    match acc.bestEstimation with
    | some best =>
        match best.location with
        | some loc =>
            { latitude := loc.latitude, longitude := loc.longitude,
              city := loc.city, region := loc.region, country := loc.country,
              confidence := min averageConfidence 75,
              source := "Best available estimation" }
        | none =>
            { latitude := none, longitude := none, city := none,
              region := some "General area only", country := none,
              confidence := min averageConfidence 50,
              source := "Insufficient coordinate data" }
    | none =>
        { latitude := none, longitude := none, city := none,
          region := some "General area only", country := none,
          confidence := min averageConfidence 50,
          source := "Insufficient coordinate data" }

/-- The per-estimate weight confidence/100. -/
def estWeight (e : LocationEstimation) : ℚ :=
  e.confidence / 100

/-- Sum of weights over all estimations (what the loop accumulates). -/
def sumWeights (es : List LocationEstimation) : ℚ :=
  (es.map estWeight).sum

/-- Sum of weight-scaled latitudes over the coordinate-bearing
estimations only. -/
def sumWeightedLat (es : List LocationEstimation) : ℚ :=
  ((es.filter hasCoordinates).map (fun e => latValue e * estWeight e)).sum

/-- Sum of weight-scaled longitudes over the coordinate-bearing
estimations only. -/
def sumWeightedLon (es : List LocationEstimation) : ℚ :=
  ((es.filter hasCoordinates).map (fun e => lonValue e * estWeight e)).sum

/-- Sum of the confidences of all estimations. -/
def sumConfidences (es : List LocationEstimation) : ℚ :=
  (es.map (fun e => e.confidence)).sum

theorem blendStep_totalWeight (acc : BlendAcc) (e : LocationEstimation) :
    (blendStep acc e).totalWeight = acc.totalWeight + estWeight e := by
  unfold blendStep estWeight
  split <;> rfl

theorem blendStep_totalConfidence (acc : BlendAcc) (e : LocationEstimation) :
    (blendStep acc e).totalConfidence = acc.totalConfidence + e.confidence := by
  unfold blendStep
  split <;> rfl

theorem blendStep_weightedLat (acc : BlendAcc) (e : LocationEstimation) :
    (blendStep acc e).weightedLat =
      acc.weightedLat + (if hasCoordinates e then latValue e * estWeight e else 0) := by
  unfold blendStep estWeight
  split
  · simp_all
  · simp_all

theorem blendStep_weightedLon (acc : BlendAcc) (e : LocationEstimation) :
    (blendStep acc e).weightedLon =
      acc.weightedLon + (if hasCoordinates e then lonValue e * estWeight e else 0) := by
  unfold blendStep estWeight
  split
  · simp_all
  · simp_all

theorem foldl_totalWeight (es : List LocationEstimation) (acc : BlendAcc) :
    (es.foldl blendStep acc).totalWeight = acc.totalWeight + sumWeights es := by
  induction es generalizing acc with
  | nil => simp [sumWeights]
  | cons e t ih =>
      rw [List.foldl_cons, ih, blendStep_totalWeight]
      simp only [sumWeights, List.map_cons, List.sum_cons]
      ring

theorem foldl_totalConfidence (es : List LocationEstimation) (acc : BlendAcc) :
    (es.foldl blendStep acc).totalConfidence = acc.totalConfidence + sumConfidences es := by
  induction es generalizing acc with
  | nil => simp [sumConfidences]
  | cons e t ih =>
      rw [List.foldl_cons, ih, blendStep_totalConfidence]
      simp only [sumConfidences, List.map_cons, List.sum_cons]
      ring

theorem foldl_weightedLat (es : List LocationEstimation) (acc : BlendAcc) :
    (es.foldl blendStep acc).weightedLat = acc.weightedLat + sumWeightedLat es := by
  induction es generalizing acc with
  | nil => simp [sumWeightedLat]
  | cons e t ih =>
      rw [List.foldl_cons, ih, blendStep_weightedLat]
      simp only [sumWeightedLat, List.filter_cons]
      by_cases h : hasCoordinates e
      · simp only [h, if_true, List.map_cons, List.sum_cons]
        ring
      · simp only [h, if_false]
        simp only [Bool.false_eq_true, if_false, add_zero]

theorem foldl_weightedLon (es : List LocationEstimation) (acc : BlendAcc) :
    (es.foldl blendStep acc).weightedLon = acc.weightedLon + sumWeightedLon es := by
  induction es generalizing acc with
  | nil => simp [sumWeightedLon]
  | cons e t ih =>
      rw [List.foldl_cons, ih, blendStep_weightedLon]
      simp only [sumWeightedLon, List.filter_cons]
      by_cases h : hasCoordinates e
      · simp only [h, if_true, List.map_cons, List.sum_cons]
        ring
      · simp only [h, if_false]
        simp only [Bool.false_eq_true, if_false, add_zero]

/-- A coordinate-bearing estimation with confidence 50. -/
def coordEstimation : LocationEstimation :=
  { algorithm := "IP Geolocation",
    location := some { latitude := some 1, longitude := some 1,
                       city := none, region := none, country := none },
    confidence := 50 }

/-- A coordinate-free estimation with confidence 50. -/
def bareEstimation : LocationEstimation :=
  { algorithm := "Connection Analysis", location := none, confidence := 50 }

/-- Claim C1, counterexample: with one coordinate-bearing estimation at
latitude 1 (confidence 50) and one coordinate-free estimation
(confidence 50), the weight-normalized mean over the coordinate-bearing
estimates alone would give latitude (0.5 x 1)/0.5 = 1, but the loop
accumulates the weight sum over every estimation, so the code returns
latitude 0.5/1.0 = 1/2. -/
theorem stealth_latitude_claim_false :
    (calculateStealthLocation [coordEstimation, bareEstimation]).latitude ≠ some 1 := by
  norm_num [calculateStealthLocation, List.foldl, blendStep, hasCoordinates,
    truthyNum, latValue, lonValue, coordEstimation, bareEstimation]

/-- Claim C1 (amended): when the total weight, taken over all
estimations, is positive and the coordinate-weighted sums are nonzero,
the blended coordinate is the coordinate-weighted sums (over the
coordinate-bearing estimations) divided by the weight sum over all
estimations. -/
theorem stealth_weighted_mean_amended (es : List LocationEstimation)
    (h1 : 0 < sumWeights es) (h2 : sumWeightedLat es ≠ 0) (h3 : sumWeightedLon es ≠ 0) :
    (calculateStealthLocation es).latitude = some (sumWeightedLat es / sumWeights es) ∧
    (calculateStealthLocation es).longitude = some (sumWeightedLon es / sumWeights es) := by
  have hW := foldl_totalWeight es ⟨0, 0, 0, 0, none⟩
  have hLa := foldl_weightedLat es ⟨0, 0, 0, 0, none⟩
  have hLo := foldl_weightedLon es ⟨0, 0, 0, 0, none⟩
  rw [show (⟨0, 0, 0, 0, none⟩ : BlendAcc).totalWeight = 0 from rfl, zero_add] at hW
  rw [show (⟨0, 0, 0, 0, none⟩ : BlendAcc).weightedLat = 0 from rfl, zero_add] at hLa
  rw [show (⟨0, 0, 0, 0, none⟩ : BlendAcc).weightedLon = 0 from rfl, zero_add] at hLo
  simp only [calculateStealthLocation]
  rw [hW, hLa, hLo, if_pos ⟨h1, h2, h3⟩]
  exact ⟨rfl, rfl⟩

/-- Witness for the amended C1 theorem on a concrete estimation list. -/
theorem stealth_weighted_mean_amended_witness :
    0 < sumWeights [coordEstimation, bareEstimation] ∧
    ((calculateStealthLocation [coordEstimation, bareEstimation]).latitude =
        some (sumWeightedLat [coordEstimation, bareEstimation] /
          sumWeights [coordEstimation, bareEstimation]) ∧
      (calculateStealthLocation [coordEstimation, bareEstimation]).longitude =
        some (sumWeightedLon [coordEstimation, bareEstimation] /
          sumWeights [coordEstimation, bareEstimation])) :=
  ⟨by norm_num [sumWeights, estWeight, coordEstimation, bareEstimation],
    stealth_weighted_mean_amended [coordEstimation, bareEstimation]
      (by norm_num [sumWeights, estWeight, coordEstimation, bareEstimation])
      (by
        have hfil : List.filter hasCoordinates [coordEstimation, bareEstimation] =
            [coordEstimation] := by decide
        unfold sumWeightedLat
        rw [hfil]
        norm_num [latValue, estWeight, coordEstimation])
      (by
        have hfil : List.filter hasCoordinates [coordEstimation, bareEstimation] =
            [coordEstimation] := by decide
        unfold sumWeightedLon
        rw [hfil]
        norm_num [lonValue, estWeight, coordEstimation])⟩

/-- The confidence and source of the blender output, by branch. -/
theorem calculateStealthLocation_confidence_cases (es : List LocationEstimation) :
    ((calculateStealthLocation es).confidence =
        min (sumConfidences es / (es.length : ℚ)) 90 ∧
      (calculateStealthLocation es).source = "Multi-algorithm stealth estimation") ∨
    ((calculateStealthLocation es).confidence =
        min (sumConfidences es / (es.length : ℚ)) 75 ∧
      (calculateStealthLocation es).source = "Best available estimation") ∨
    ((calculateStealthLocation es).confidence =
        min (sumConfidences es / (es.length : ℚ)) 50 ∧
      (calculateStealthLocation es).source = "Insufficient coordinate data") := by
  have hC := foldl_totalConfidence es ⟨0, 0, 0, 0, none⟩
  rw [show (⟨0, 0, 0, 0, none⟩ : BlendAcc).totalConfidence = 0 from rfl, zero_add] at hC
  simp only [calculateStealthLocation]
  rw [hC]
  split_ifs with h
  · exact Or.inl ⟨rfl, rfl⟩
  · split
    · split
      · exact Or.inr (Or.inl ⟨rfl, rfl⟩)
      · exact Or.inr (Or.inr ⟨rfl, rfl⟩)
    · exact Or.inr (Or.inr ⟨rfl, rfl⟩)

/-- A coordinate-bearing estimation with the maximal confidence 100. -/
def maxConfEstimation : LocationEstimation :=
  { algorithm := "IP Geolocation",
    location := some { latitude := some 1, longitude := some 1,
                       city := none, region := none, country := none },
    confidence := 100 }

/-- Claim C2, counterexample: five estimations of confidence 100 (all
within [0,100]) have arithmetic mean 100, but the blended result's
confidence is min(100, 90) = 90, so the returned confidence does not
equal the mean. -/
theorem stealth_confidence_claim_false :
    (calculateStealthLocation
      [maxConfEstimation, maxConfEstimation, maxConfEstimation,
        maxConfEstimation, maxConfEstimation]).confidence ≠ 100 := by
  norm_num [calculateStealthLocation, List.foldl, blendStep, hasCoordinates,
    truthyNum, latValue, lonValue, maxConfEstimation]

/-- Claim C2 (amended): for a nonempty estimation list whose
confidences all lie in [0,100], the returned confidence is the
arithmetic mean of all confidences capped at the branch cap — 90 for
the blended coordinate, 75 for the best-estimation fallback, 50 for the
general-area placeholder — hence it is at most 90 in every case, at
most 75 and 50 respectively in the fallback cases, and at least 0. -/
theorem stealth_confidence_amended (es : List LocationEstimation)
    (hne : es ≠ []) (hconf : ∀ e ∈ es, 0 ≤ e.confidence ∧ e.confidence ≤ 100) :
    0 ≤ (calculateStealthLocation es).confidence ∧
    (calculateStealthLocation es).confidence ≤ 90 ∧
    ((calculateStealthLocation es).source = "Multi-algorithm stealth estimation" →
      (calculateStealthLocation es).confidence =
        min (sumConfidences es / (es.length : ℚ)) 90) ∧
    ((calculateStealthLocation es).source = "Best available estimation" →
      (calculateStealthLocation es).confidence =
        min (sumConfidences es / (es.length : ℚ)) 75 ∧
      (calculateStealthLocation es).confidence ≤ 75) ∧
    ((calculateStealthLocation es).source = "Insufficient coordinate data" →
      (calculateStealthLocation es).confidence =
        min (sumConfidences es / (es.length : ℚ)) 50 ∧
      (calculateStealthLocation es).confidence ≤ 50) := by
  have hsum : 0 ≤ sumConfidences es := by
    apply List.sum_nonneg
    intro x hx
    obtain ⟨e, he, rfl⟩ := List.mem_map.1 hx
    exact (hconf e he).1
  have hlen : (0:ℚ) < (es.length : ℚ) := by
    have hp : 0 < es.length := List.length_pos.2 hne
    exact_mod_cast hp
  have hA : 0 ≤ sumConfidences es / (es.length : ℚ) := div_nonneg hsum hlen.le
  rcases calculateStealthLocation_confidence_cases es with ⟨hc, hs⟩ | ⟨hc, hs⟩ | ⟨hc, hs⟩ <;>
    rw [hc, hs]
  · refine ⟨le_min hA (by norm_num), min_le_right _ _, fun _ => rfl, ?_, ?_⟩
    · intro h
      exact absurd h (by decide)
    · intro h
      exact absurd h (by decide)
  · refine ⟨le_min hA (by norm_num),
      le_trans (min_le_right _ _) (by norm_num), ?_,
      fun _ => ⟨rfl, min_le_right _ _⟩, ?_⟩
    · intro h
      exact absurd h (by decide)
    · intro h
      exact absurd h (by decide)
  · refine ⟨le_min hA (by norm_num),
      le_trans (min_le_right _ _) (by norm_num), ?_, ?_,
      fun _ => ⟨rfl, min_le_right _ _⟩⟩
    · intro h
      exact absurd h (by decide)
    · intro h
      exact absurd h (by decide)

/-- Witness for the amended C2 theorem on a concrete estimation list. -/
theorem stealth_confidence_amended_witness :
    [bareEstimation] ≠ [] ∧
    (0 ≤ (calculateStealthLocation [bareEstimation]).confidence ∧
      (calculateStealthLocation [bareEstimation]).confidence ≤ 90 ∧
      ((calculateStealthLocation [bareEstimation]).source = "Multi-algorithm stealth estimation" →
        (calculateStealthLocation [bareEstimation]).confidence =
          min (sumConfidences [bareEstimation] / (([bareEstimation] : List LocationEstimation).length : ℚ)) 90) ∧
      ((calculateStealthLocation [bareEstimation]).source = "Best available estimation" →
        (calculateStealthLocation [bareEstimation]).confidence =
          min (sumConfidences [bareEstimation] / (([bareEstimation] : List LocationEstimation).length : ℚ)) 75 ∧
        (calculateStealthLocation [bareEstimation]).confidence ≤ 75) ∧
      ((calculateStealthLocation [bareEstimation]).source = "Insufficient coordinate data" →
        (calculateStealthLocation [bareEstimation]).confidence =
          min (sumConfidences [bareEstimation] / (([bareEstimation] : List LocationEstimation).length : ℚ)) 50 ∧
        (calculateStealthLocation [bareEstimation]).confidence ≤ 50)) :=
  ⟨by decide,
    stealth_confidence_amended [bareEstimation] (by decide)
      (by
        intro e he
        rw [List.mem_singleton] at he
        subst he
        constructor <;> norm_num [bareEstimation])⟩

/-! ## Fingerprint Generator -/

/-- The defaulting `value || "unknown"` used for the component list: a
JS-falsy value (absent field or empty string) becomes the literal
marker unknown. -/
def orUnknown (v : Option String) : String :=
  match v with
  | some s => if s = "" then "unknown" else s
  | none => "unknown"

/-- The two-step chain `frontendData.language ||
req.headers[accept-language] || "unknown"`. -/
def orUnknown2 (a b : Option String) : String :=
  match a with
  | some s => if s = "" then orUnknown b else s
  | none => orUnknown b

/-- The client-declared metadata consulted by generateDeviceFingerprint.
The pixelScale field models the source's device pixel-ratio component;
numeric source fields are carried as their decimal spellings. -/
structure FrontendData where
  screenResolution : Option String
  timezone : Option String
  language : Option String
  colorDepth : Option String
  pixelScale : Option String
  hardwareConcurrency : Option String
  deviceMemory : Option String

/-- The request headers consulted by generateDeviceFingerprint. -/
structure ReqHeaders where
  acceptEncoding : Option String
  acceptLanguage : Option String

/-- The ten fingerprint components in the declared order of
generateDeviceFingerprint.  The user agent is passed through as is —
the source applies no unknown defaulting to it. -/
def fingerprintComponents (headers : ReqHeaders) (userAgent : String)
    (fd : FrontendData) : List String :=
  [userAgent,
   orUnknown fd.screenResolution,
   orUnknown fd.timezone,
   orUnknown2 fd.language headers.acceptLanguage,
   orUnknown fd.colorDepth,
   orUnknown fd.pixelScale,
   orUnknown fd.hardwareConcurrency,
   orUnknown fd.deviceMemory,
   orUnknown headers.acceptEncoding,
   orUnknown headers.acceptLanguage]

/-- calculateFingerprintConfidence: Math.round of
(definedComponents / components.length) * 100, a component being
defined when truthy (nonempty) and not the unknown marker. -/
def calculateFingerprintConfidence (components : List String) : ℤ :=
  ⌊((components.filter (fun c => c != "" && c != "unknown")).length : ℚ)
      / (components.length : ℚ) * 100 + 1/2⌋

/-- Count of components differing from the unknown marker, the quantity
named by the specified confidence formula. -/
def nonUnknownCount (components : List String) : ℕ :=
  (components.filter (fun c => c != "unknown")).length

theorem orUnknown_ne_empty (v : Option String) :
    orUnknown v = "unknown" ∨ orUnknown v ≠ "" := by
  rcases v with _ | s
  · exact Or.inl rfl
  · by_cases h : s = ""
    · left
      simp [orUnknown, h]
    · right
      simp [orUnknown, h]

theorem orUnknown2_ne_empty (a b : Option String) :
    orUnknown2 a b = "unknown" ∨ orUnknown2 a b ≠ "" := by
  rcases a with _ | s
  · exact orUnknown_ne_empty b
  · by_cases h : s = ""
    · have hred : orUnknown2 (some s) b = orUnknown b := by
        simp [orUnknown2, h]
      rw [hred]
      exact orUnknown_ne_empty b
    · right
      simp [orUnknown2, h]

theorem fingerprintComponents_ne_empty (headers : ReqHeaders) (userAgent : String)
    (fd : FrontendData) (hua : userAgent ≠ "") :
    ∀ comp ∈ fingerprintComponents headers userAgent fd,
      comp = "unknown" ∨ comp ≠ "" := by
  intro comp hcomp
  simp only [fingerprintComponents, List.mem_cons, List.not_mem_nil, or_false] at hcomp
  rcases hcomp with h | h | h | h | h | h | h | h | h | h <;> subst h
  · exact Or.inr hua
  · exact orUnknown_ne_empty _
  · exact orUnknown_ne_empty _
  · exact orUnknown2_ne_empty _ _
  · exact orUnknown_ne_empty _
  · exact orUnknown_ne_empty _
  · exact orUnknown_ne_empty _
  · exact orUnknown_ne_empty _
  · exact orUnknown_ne_empty _
  · exact orUnknown_ne_empty _

/-- Claim C8: over component assignments in which every absent
component is the literal unknown marker (no component is the empty
string, which the source's truthiness test would additionally drop),
the fingerprint confidence equals round(100 x count-of-non-unknown /
10), and equals 100 exactly when all ten components are non-unknown. -/
theorem fingerprint_confidence_formula (headers : ReqHeaders) (userAgent : String)
    (fd : FrontendData) (hua : userAgent ≠ "") :
    calculateFingerprintConfidence (fingerprintComponents headers userAgent fd) =
      ⌊100 * (nonUnknownCount (fingerprintComponents headers userAgent fd) : ℚ) / 10 + 1/2⌋ ∧
    (calculateFingerprintConfidence (fingerprintComponents headers userAgent fd) = 100 ↔
      ∀ comp ∈ fingerprintComponents headers userAgent fd, comp ≠ "unknown") := by
  have hfil :
      (fingerprintComponents headers userAgent fd).filter
          (fun c => c != "" && c != "unknown") =
        (fingerprintComponents headers userAgent fd).filter (fun c => c != "unknown") := by
    apply List.filter_congr
    intro x hx
    rcases fingerprintComponents_ne_empty headers userAgent fd hua x hx with h | h
    · subst h
      simp
    · simp [h]
  have hlen : (fingerprintComponents headers userAgent fd).length = 10 := rfl
  have hcount : nonUnknownCount (fingerprintComponents headers userAgent fd) ≤ 10 := by
    rw [nonUnknownCount]
    rw [← hlen]
    exact List.length_filter_le _ _
  have hval : calculateFingerprintConfidence (fingerprintComponents headers userAgent fd) =
      10 * (nonUnknownCount (fingerprintComponents headers userAgent fd) : ℤ) := by
    rw [calculateFingerprintConfidence, hfil, hlen]
    have harith :
        ((nonUnknownCount (fingerprintComponents headers userAgent fd) : ℚ)) / (10 : ℕ) * 100 + 1/2 =
          ((10 * (nonUnknownCount (fingerprintComponents headers userAgent fd) : ℤ) : ℤ) : ℚ) + 1/2 := by
      push_cast
      ring
    rw [show (((fingerprintComponents headers userAgent fd).filter
        (fun c => c != "unknown")).length : ℚ) =
        ((nonUnknownCount (fingerprintComponents headers userAgent fd) : ℕ) : ℚ) from rfl]
    rw [harith, Int.floor_int_add]
    norm_num
  constructor
  · rw [hval]
    have harith2 :
        100 * (nonUnknownCount (fingerprintComponents headers userAgent fd) : ℚ) / 10 + 1/2 =
          ((10 * (nonUnknownCount (fingerprintComponents headers userAgent fd) : ℤ) : ℤ) : ℚ) + 1/2 := by
      push_cast
      ring
    rw [harith2, Int.floor_int_add]
    norm_num
  · rw [hval]
    constructor
    · intro h
      have hc10 : nonUnknownCount (fingerprintComponents headers userAgent fd) = 10 := by omega
      have hfull := List.filter_length_eq_length.1 (by rw [← nonUnknownCount, hc10, hlen])
      intro comp hcomp
      have := hfull comp hcomp
      simpa using this
    · intro h
      have hc10 : nonUnknownCount (fingerprintComponents headers userAgent fd) = 10 := by
        rw [nonUnknownCount, ← hlen]
        apply List.filter_length_eq_length.2
        intro a ha
        simpa using h a ha
      rw [hc10]
      norm_num

/-- Witness for the C8 theorem on a concrete component assignment. -/
theorem fingerprint_confidence_formula_witness :
    "Mozilla/5.0" ≠ "" ∧
    (calculateFingerprintConfidence
        (fingerprintComponents ⟨some "gzip", none⟩ "Mozilla/5.0"
          ⟨some "1920x1080", none, none, some "24", none, none, none⟩) =
      ⌊100 * (nonUnknownCount
          (fingerprintComponents ⟨some "gzip", none⟩ "Mozilla/5.0"
            ⟨some "1920x1080", none, none, some "24", none, none, none⟩) : ℚ) / 10 + 1/2⌋ ∧
    (calculateFingerprintConfidence
        (fingerprintComponents ⟨some "gzip", none⟩ "Mozilla/5.0"
          ⟨some "1920x1080", none, none, some "24", none, none, none⟩) = 100 ↔
      ∀ comp ∈ fingerprintComponents ⟨some "gzip", none⟩ "Mozilla/5.0"
          ⟨some "1920x1080", none, none, some "24", none, none, none⟩, comp ≠ "unknown")) :=
  ⟨by decide,
    fingerprint_confidence_formula ⟨some "gzip", none⟩ "Mozilla/5.0"
      ⟨some "1920x1080", none, none, some "24", none, none, none⟩ (by decide)⟩

/-! ## Movement Analyzer -/

/-- Math.atan2 y x in the JS convention: range (-pi, pi], sign of y for
positive x, shifted by pi on the negative-x half plane. -/
noncomputable def jsAtan2 (y x : ℝ) : ℝ :=
  if 0 < x then Real.arctan (y / x)
  else if x = 0 then
    if 0 < y then Real.pi / 2 else if y < 0 then -(Real.pi / 2) else 0
  else if 0 ≤ y then Real.arctan (y / x) + Real.pi
  else Real.arctan (y / x) - Real.pi

/-- Truncation towards zero, as the JS remainder does. -/
noncomputable def rtrunc (x : ℝ) : ℤ :=
  if 0 ≤ x then ⌊x⌋ else -⌊-x⌋

/-- The JS remainder a % b (takes the sign of the dividend). -/
noncomputable def jsMod (a b : ℝ) : ℝ :=
  a - b * (rtrunc (a / b) : ℝ)

/-- Math.round: the floor of x + 1/2 (JS rounds half towards positive
infinity). -/
noncomputable def jsRound (x : ℝ) : ℤ :=
  ⌊x + 1/2⌋

/-- Math.round(x * 100) / 100: rounding to two decimal places. -/
noncomputable def round2 (x : ℝ) : ℝ :=
  (jsRound (x * 100) : ℝ) / 100

/-- Degrees to radians: x * Math.PI / 180. -/
noncomputable def deg2rad (x : ℝ) : ℝ :=
  x * Real.pi / 180

theorem arctan_nonpos_of (t : ℝ) (h : t ≤ 0) : Real.arctan t ≤ 0 := by
  have hm := Real.arctan_strictMono.monotone h
  rwa [Real.arctan_zero] at hm

theorem arctan_pos_of (t : ℝ) (h : 0 < t) : 0 < Real.arctan t := by
  have hm := Real.arctan_strictMono h
  rwa [Real.arctan_zero] at hm

theorem arctan_neg_of (t : ℝ) (h : t < 0) : Real.arctan t < 0 := by
  have hm := Real.arctan_strictMono h
  rwa [Real.arctan_zero] at hm

theorem arctan_nonneg_of (t : ℝ) (h : 0 ≤ t) : 0 ≤ Real.arctan t := by
  have hm := Real.arctan_strictMono.monotone h
  rwa [Real.arctan_zero] at hm

/-- The range of jsAtan2 is (-pi, pi]. -/
theorem jsAtan2_mem (y x : ℝ) : -Real.pi < jsAtan2 y x ∧ jsAtan2 y x ≤ Real.pi := by
  have hpi := Real.pi_pos
  have ha1 := Real.arctan_lt_pi_div_two (y / x)
  have ha2 := Real.neg_pi_div_two_lt_arctan (y / x)
  unfold jsAtan2
  split_ifs with h1 hx0 hy1 hy2 hy3
  · constructor <;> linarith
  · constructor <;> linarith
  · constructor <;> linarith
  · constructor <;> linarith
  · have hx : x < 0 := lt_of_le_of_ne (not_lt.1 h1) hx0
    have hdiv : y / x ≤ 0 := div_nonpos_iff.2 (Or.inl ⟨hy3, hx.le⟩)
    have := arctan_nonpos_of (y / x) hdiv
    constructor <;> linarith
  · have hx : x < 0 := lt_of_le_of_ne (not_lt.1 h1) hx0
    have hy : y < 0 := not_le.1 hy3
    have hdiv : 0 < y / x := div_pos_iff.2 (Or.inr ⟨hy, hx⟩)
    have := arctan_pos_of (y / x) hdiv
    constructor <;> linarith

/-- Over the closed first quadrant jsAtan2 lies in [0, pi/2]. -/
theorem jsAtan2_first_quadrant (y x : ℝ) (hy : 0 ≤ y) (hx : 0 ≤ x) :
    0 ≤ jsAtan2 y x ∧ jsAtan2 y x ≤ Real.pi / 2 := by
  have hpi := Real.pi_pos
  have ha1 := Real.arctan_lt_pi_div_two (y / x)
  unfold jsAtan2
  split_ifs with h1 hx0 hy1 hy2
  · have hdiv : 0 ≤ y / x := div_nonneg hy hx
    have := arctan_nonneg_of (y / x) hdiv
    constructor <;> linarith
  · constructor <;> linarith
  · exact absurd hy2 (not_lt.2 hy)
  · constructor <;> linarith
  · exact absurd (lt_of_le_of_ne (not_lt.1 h1) hx0) (not_lt.2 hx)

/-- The haversine intermediate a of calculateDistance. -/
noncomputable def haversineA (lat1 lon1 lat2 lon2 : ℝ) : ℝ :=
  Real.sin (deg2rad (lat2 - lat1) / 2) * Real.sin (deg2rad (lat2 - lat1) / 2) +
    Real.cos (deg2rad lat1) * Real.cos (deg2rad lat2) *
      Real.sin (deg2rad (lon2 - lon1) / 2) * Real.sin (deg2rad (lon2 - lon1) / 2)

/-- calculateDistance: haversine great-circle distance on the sphere of
radius 6,371,000 meters. -/
noncomputable def calculateDistance (lat1 lon1 lat2 lon2 : ℝ) : ℝ :=
  6371000 * (2 * jsAtan2 (Real.sqrt (haversineA lat1 lon1 lat2 lon2))
    (Real.sqrt (1 - haversineA lat1 lon1 lat2 lon2)))

/-- calculateBearing: the forward azimuth in degrees, shifted by 360,
reduced by the JS remainder and rounded. -/
noncomputable def calculateBearing (lat1 lon1 lat2 lon2 : ℝ) : ℤ :=
  jsRound (jsMod (jsAtan2
      (Real.sin (deg2rad (lon2 - lon1)) * Real.cos (deg2rad lat2))
      (Real.cos (deg2rad lat1) * Real.sin (deg2rad lat2) -
        Real.sin (deg2rad lat1) * Real.cos (deg2rad lat2) * Real.cos (deg2rad (lon2 - lon1)))
      * 180 / Real.pi + 360) 360)

/-- classifyMovement: the speed-band classification. -/
noncomputable def classifyMovement (distance speedKmh : ℝ) : String :=
  if distance < 5 then "stationary"
  else if speedKmh < 5 then "walking"
  else if speedKmh < 25 then "cycling"
  else if speedKmh < 80 then "driving"
  else "high-speed"

/-- A coordinate pair.  The data model ties the presence of latitude
and longitude together, so an absent pair is the coordinates object
being absent in TrackedLocation. -/
structure Coordinates where
  latitude : ℝ
  longitude : ℝ

/-- A timestamped location handed to analyzeMovement (timestamps are
epoch milliseconds). -/
structure TrackedLocation where
  coordinates : Option Coordinates
  timestamp : ℤ

/-- The record returned by analyzeMovement. -/
structure MovementResult where
  distance : ℤ
  timeDifference : ℤ
  speed : ℝ
  direction : ℤ
  movementType : String
  isSignificantMovement : Prop

/-- analyzeMovement: null when either coordinates object is missing or
either latitude is JS-falsy (the number 0); otherwise the rounded
distance, the raw time delta, the speed in km/h (m/s speed guarded by
a positive time delta, scaled by 3.6 and rounded to two decimals), the
bearing, the classification and the 10-meter significance flag. -/
noncomputable def analyzeMovement (previousLocation currentLocation : TrackedLocation) :
    Option MovementResult :=
  match previousLocation.coordinates, currentLocation.coordinates with
  | some prev, some curr =>
      if prev.latitude = 0 ∨ curr.latitude = 0 then none
      else
        let distance := calculateDistance prev.latitude prev.longitude
          curr.latitude curr.longitude
        let timeDiff := currentLocation.timestamp - previousLocation.timestamp
        let speed : ℝ := if 0 < timeDiff then distance / (timeDiff : ℝ) * 1000 else 0
        some { distance := jsRound distance,
               timeDifference := timeDiff,
               speed := round2 (speed * 3.6),
               direction := calculateBearing prev.latitude prev.longitude
                 curr.latitude curr.longitude,
               movementType := classifyMovement distance (speed * 3.6),
               isSignificantMovement := 10 < distance }
  | _, _ => none

/-! ## Bearing range -/

theorem jsMod_360_bounds (a : ℝ) (ha : 0 ≤ a) :
    0 ≤ jsMod a 360 ∧ jsMod a 360 < 360 := by
  unfold jsMod rtrunc
  rw [if_pos (div_nonneg ha (by norm_num : (0:ℝ) ≤ 360))]
  have h1 : ((⌊a / 360⌋ : ℝ)) * 360 ≤ a :=
    (le_div_iff (by norm_num : (0:ℝ) < 360)).1 (Int.floor_le _)
  have h2 : a < ((⌊a / 360⌋ : ℝ) + 1) * 360 := by
    have hf := Int.sub_one_lt_floor (a / 360)
    have := (div_lt_iff (by norm_num : (0:ℝ) < 360)).1
      (show a / 360 < (⌊a / 360⌋ : ℝ) + 1 by linarith)
    linarith
  constructor <;> linarith

theorem jsRound_deg_range (t : ℝ) (h1 : -Real.pi < t) (h2 : t ≤ Real.pi) :
    0 ≤ jsRound (jsMod (t * 180 / Real.pi + 360) 360) ∧
    jsRound (jsMod (t * 180 / Real.pi + 360) 360) ≤ 360 := by
  have hpi := Real.pi_pos
  have hlow : (-180 : ℝ) < t * 180 / Real.pi :=
    (lt_div_iff hpi).2 (by nlinarith)
  have hhigh : t * 180 / Real.pi ≤ 180 :=
    (div_le_iff hpi).2 (by nlinarith)
  have hg : 0 ≤ t * 180 / Real.pi + 360 := by linarith
  obtain ⟨hm0, hm1⟩ := jsMod_360_bounds (t * 180 / Real.pi + 360) hg
  constructor
  · exact Int.le_floor.2 (by push_cast; linarith)
  · have hlt : jsRound (jsMod (t * 180 / Real.pi + 360) 360) < 361 := by
      unfold jsRound
      exact Int.floor_lt.2 (by push_cast; linarith)
    omega

/-- Claim C7 (amended): the bearing reported by calculateBearing lies
in the closed interval [0, 360]; the value 360 itself can occur because
Math.round is applied after the reduction modulo 360, sending any
fractional bearing of 359.5 degrees or more up to 360. -/
theorem calculateBearing_amended (lat1 lon1 lat2 lon2 : ℝ) :
    0 ≤ calculateBearing lat1 lon1 lat2 lon2 ∧
    calculateBearing lat1 lon1 lat2 lon2 ≤ 360 := by
  unfold calculateBearing
  exact jsRound_deg_range _ (jsAtan2_mem _ _).1 (jsAtan2_mem _ _).2


set_option maxHeartbeats 2000000 in
/-- Claim C7, counterexample: from (0,0) towards (89, -0.01) the true
bearing is a fraction of a degree below 360, the modulo-360 reduction
leaves it untouched, and the final Math.round lifts it to exactly 360,
so the returned bearing is not strictly below 360. -/
theorem calculateBearing_claim_false :
    ¬ calculateBearing 0 0 89 (-(1/100)) < 360 := by
  have hpi := Real.pi_pos
  have hpi3 := Real.pi_gt_three
  have hpi4 := Real.pi_lt_four
  have hd0 : deg2rad 0 = 0 := by simp [deg2rad]
  have hd89 : deg2rad 89 = Real.pi / 2 - Real.pi / 180 := by
    unfold deg2rad; ring
  have hdl : deg2rad (-(1/100) - 0) = -(Real.pi / 18000) := by
    unfold deg2rad; ring
  have hx_eq : Real.cos (deg2rad 0) * Real.sin (deg2rad 89) -
      Real.sin (deg2rad 0) * Real.cos (deg2rad 89) * Real.cos (deg2rad (-(1/100) - 0)) =
      Real.cos (Real.pi / 180) := by
    rw [hd0, hd89, Real.cos_zero, Real.sin_zero, Real.sin_pi_div_two_sub]
    ring
  have hy_eq : Real.sin (deg2rad (-(1/100) - 0)) * Real.cos (deg2rad 89) =
      -(Real.sin (Real.pi / 18000) * Real.sin (Real.pi / 180)) := by
    rw [hdl, hd89, Real.sin_neg, Real.cos_pi_div_two_sub]
    ring
  -- bounds on the two trig factors
  have hXlb : (1/2 : ℝ) ≤ Real.cos (Real.pi / 180) := by
    have hc := Real.one_sub_sq_div_two_le_cos (x := Real.pi / 180)
    nlinarith
  have hXpos : (0:ℝ) < Real.cos (Real.pi / 180) := by linarith
  have hs_pos : 0 < Real.sin (Real.pi / 18000) :=
    Real.sin_pos_of_pos_of_lt_pi (by positivity) (by nlinarith)
  have hs_lt : Real.sin (Real.pi / 18000) < Real.pi / 18000 := Real.sin_lt (by positivity)
  have ht_pos : 0 < Real.sin (Real.pi / 180) :=
    Real.sin_pos_of_pos_of_lt_pi (by positivity) (by nlinarith)
  have ht_le : Real.sin (Real.pi / 180) ≤ 1 := Real.sin_le_one _
  have hY_neg : -(Real.sin (Real.pi / 18000) * Real.sin (Real.pi / 180)) < 0 := by
    nlinarith
  have hY_lb : -(1/4500 : ℝ) < -(Real.sin (Real.pi / 18000) * Real.sin (Real.pi / 180)) := by
    nlinarith
  set X : ℝ := Real.cos (Real.pi / 180)
  set Y : ℝ := -(Real.sin (Real.pi / 18000) * Real.sin (Real.pi / 180))
  have hr_neg : Y / X < 0 := div_neg_of_neg_of_pos hY_neg hXpos
  have hXle1 : X ≤ 1 := Real.cos_le_one _
  have hr_lb : -(1/2250 : ℝ) < Y / X := by
    rw [lt_div_iff hXpos]
    nlinarith
  have htan : Real.pi / 360 < Real.tan (Real.pi / 360) :=
    Real.lt_tan (by positivity) (by nlinarith)
  have hneg_tan_lt : -(Real.tan (Real.pi / 360)) < Y / X := by linarith
  have harct_eq : Real.arctan (-(Real.tan (Real.pi / 360))) = -(Real.pi / 360) := by
    rw [Real.arctan_neg, Real.arctan_tan (by linarith) (by linarith)]
  have hth_gt : -(Real.pi / 360) < Real.arctan (Y / X) := by
    have hm := Real.arctan_strictMono hneg_tan_lt
    rwa [harct_eq] at hm
  have hth_lt : Real.arctan (Y / X) < 0 := arctan_neg_of _ hr_neg
  -- the atan2 call reduces to arctan on the positive-x branch
  have hatan : jsAtan2 Y X = Real.arctan (Y / X) := by
    unfold jsAtan2
    rw [if_pos hXpos]
  -- degree conversion bounds
  have hD_lt : Real.arctan (Y / X) * 180 / Real.pi < 0 :=
    div_neg_of_neg_of_pos (by nlinarith) hpi
  have hD_gt : -(1/2 : ℝ) < Real.arctan (Y / X) * 180 / Real.pi := by
    rw [lt_div_iff hpi]
    nlinarith
  set D : ℝ := Real.arctan (Y / X) * 180 / Real.pi
  have hg_lb : (359.5 : ℝ) < D + 360 := by norm_num; linarith
  have hg_ub : D + 360 < 360 := by linarith
  have hg_nonneg : (0:ℝ) ≤ D + 360 := by linarith
  have hmod : jsMod (D + 360) 360 = D + 360 := by
    unfold jsMod rtrunc
    rw [if_pos (div_nonneg hg_nonneg (by norm_num))]
    have hfloor : ⌊(D + 360) / 360⌋ = 0 := by
      apply Int.floor_eq_zero_iff.2
      constructor
      · exact div_nonneg hg_nonneg (by norm_num)
      · rw [div_lt_one (by norm_num)]
        linarith
    rw [hfloor]
    push_cast
    ring
  have hround : jsRound (D + 360) = 360 := by
    unfold jsRound
    apply Int.floor_eq_iff.2
    constructor
    · push_cast
      linarith
    · push_cast
      linarith
  have hfinal : calculateBearing 0 0 89 (-(1/100)) = 360 := by
    unfold calculateBearing
    rw [hx_eq, hy_eq, hatan, hmod, hround]
  rw [hfinal]
  omega

/-! ## Movement analyzer theorems -/

theorem haversineA_poles : haversineA 90 0 (-90) 0 = 1 := by
  unfold haversineA
  have h1 : deg2rad (-90 - 90) / 2 = -(Real.pi / 2) := by
    unfold deg2rad
    ring
  have h2 : deg2rad 90 = Real.pi / 2 := by
    unfold deg2rad
    ring
  have h3 : deg2rad (0 - 0) / 2 = 0 := by
    unfold deg2rad
    ring
  rw [h1, h2, h3, Real.sin_neg, Real.sin_pi_div_two, Real.cos_pi_div_two, Real.sin_zero]
  ring

theorem calculateDistance_poles : calculateDistance 90 0 (-90) 0 = 6371000 * Real.pi := by
  unfold calculateDistance
  rw [haversineA_poles]
  rw [show (1:ℝ) - 1 = 0 by norm_num, Real.sqrt_zero, Real.sqrt_one]
  have hat : jsAtan2 1 0 = Real.pi / 2 := by
    unfold jsAtan2
    rw [if_neg (lt_irrefl (0:ℝ)), if_pos rfl, if_pos (by norm_num : (0:ℝ) < 1)]
  rw [hat]
  ring

theorem analyzeMovement_poles_eval :
    (analyzeMovement ⟨some ⟨90, 0⟩, 0⟩ ⟨some ⟨-90, 0⟩, 3600000⟩).map MovementResult.speed =
      some (round2 (calculateDistance 90 0 (-90) 0 / ((3600000 : ℤ) : ℝ) * 1000 * 3.6)) := by
  simp only [analyzeMovement]
  rw [if_neg (by norm_num : ¬ ((90:ℝ) = 0 ∨ (-90:ℝ) = 0))]
  norm_num

/-- Claim C6, counterexample: from pole to pole (latitude 90 to -90)
in one hour the exact speed is 6371 pi km/h, an irrational number whose
hundredfold lies strictly between the consecutive integers 2001508 and
2001509; the reported speed is that value rounded to two decimals, a
rational number, so the reported speed does not equal
distance_m / delta_t_s x 3.6 as the claim states. -/
theorem analyzeMovement_speed_claim_false :
    (analyzeMovement ⟨some ⟨90, 0⟩, 0⟩ ⟨some ⟨-90, 0⟩, 3600000⟩).map MovementResult.speed ≠
      some (calculateDistance 90 0 (-90) 0 / 3600 * 3.6) := by
  rw [analyzeMovement_poles_eval, calculateDistance_poles]
  intro hcontra
  rw [Option.some_inj] at hcontra
  have harg : 6371000 * Real.pi / ((3600000 : ℤ) : ℝ) * 1000 * 3.6 = 6371 * Real.pi := by
    push_cast
    norm_num
    ring
  have hrhs : 6371000 * Real.pi / 3600 * 3.6 = 6371 * Real.pi := by
    norm_num
    ring
  rw [harg, hrhs] at hcontra
  unfold round2 jsRound at hcontra
  rw [div_eq_iff (by norm_num : (100:ℝ) ≠ 0)] at hcontra
  have hzval : ((⌊6371 * Real.pi * 100 + 1/2⌋ : ℤ) : ℝ) = 637100 * Real.pi := by
    rw [hcontra]
    ring
  have hmul1 : (637100:ℝ) * 3.141592 < 637100 * Real.pi := by
    nlinarith [Real.pi_gt_d6]
  have hmul2 : (637100:ℝ) * Real.pi < 637100 * 3.141593 := by
    nlinarith [Real.pi_lt_d6]
  have h1 : (2001508 : ℝ) < ((⌊6371 * Real.pi * 100 + 1/2⌋ : ℤ) : ℝ) := by
    rw [hzval]
    nlinarith
  have h2 : ((⌊6371 * Real.pi * 100 + 1/2⌋ : ℤ) : ℝ) < 2001509 := by
    rw [hzval]
    nlinarith
  have h1i : (2001508 : ℤ) < ⌊6371 * Real.pi * 100 + 1/2⌋ := by exact_mod_cast h1
  have h2i : (⌊6371 * Real.pi * 100 + 1/2⌋ : ℤ) < 2001509 := by exact_mod_cast h2
  omega

theorem calculateDistance_bounds (lat1 lon1 lat2 lon2 : ℝ) :
    0 ≤ calculateDistance lat1 lon1 lat2 lon2 ∧
    calculateDistance lat1 lon1 lat2 lon2 ≤ 6371000 * Real.pi := by
  obtain ⟨h1, h2⟩ := jsAtan2_first_quadrant
    (Real.sqrt (haversineA lat1 lon1 lat2 lon2))
    (Real.sqrt (1 - haversineA lat1 lon1 lat2 lon2))
    (Real.sqrt_nonneg _) (Real.sqrt_nonneg _)
  unfold calculateDistance
  constructor <;> linarith

theorem analyzeMovement_some_eval (p c : Coordinates) (tp tc : ℤ)
    (hp : p.latitude ≠ 0) (hc : c.latitude ≠ 0) :
    analyzeMovement ⟨some p, tp⟩ ⟨some c, tc⟩ = some
      { distance := jsRound (calculateDistance p.latitude p.longitude
          c.latitude c.longitude),
        timeDifference := tc - tp,
        speed := round2 ((if 0 < tc - tp then
          calculateDistance p.latitude p.longitude c.latitude c.longitude /
            ((tc - tp : ℤ) : ℝ) * 1000 else 0) * 3.6),
        direction := calculateBearing p.latitude p.longitude c.latitude c.longitude,
        movementType := classifyMovement
          (calculateDistance p.latitude p.longitude c.latitude c.longitude)
          ((if 0 < tc - tp then
            calculateDistance p.latitude p.longitude c.latitude c.longitude /
              ((tc - tp : ℤ) : ℝ) * 1000 else 0) * 3.6),
        isSignificantMovement :=
          10 < calculateDistance p.latitude p.longitude c.latitude c.longitude } := by
  simp only [analyzeMovement]
  rw [if_neg (not_or.2 ⟨hp, hc⟩)]

/-- Claim C6 (amended): for coordinate pairs with nonzero latitudes
(the analyzer returns no result when a latitude is zero or a coordinate
object is absent), a result is produced; its speed is 0 when the time
delta is zero or negative and otherwise equals
distance_m / delta_t_s x 3.6 rounded to two decimal places; and the
distance is a well-defined real number in [0, pi x 6,371,000] — the
real-valued rendering of the no-NaN/no-infinity part of the claim. -/
theorem analyzeMovement_amended (p c : Coordinates) (tp tc : ℤ)
    (hp : p.latitude ≠ 0) (hc : c.latitude ≠ 0) :
    (analyzeMovement ⟨some p, tp⟩ ⟨some c, tc⟩).isSome = true ∧
    (tc - tp ≤ 0 →
      (analyzeMovement ⟨some p, tp⟩ ⟨some c, tc⟩).map MovementResult.speed = some 0) ∧
    (0 < tc - tp →
      (analyzeMovement ⟨some p, tp⟩ ⟨some c, tc⟩).map MovementResult.speed =
        some (round2 (calculateDistance p.latitude p.longitude c.latitude c.longitude /
          (((tc - tp : ℤ) : ℝ) / 1000) * 3.6))) ∧
    0 ≤ calculateDistance p.latitude p.longitude c.latitude c.longitude ∧
    calculateDistance p.latitude p.longitude c.latitude c.longitude ≤ 6371000 * Real.pi := by
  obtain ⟨hb1, hb2⟩ := calculateDistance_bounds p.latitude p.longitude c.latitude c.longitude
  rw [analyzeMovement_some_eval p c tp tc hp hc]
  refine ⟨rfl, ?_, ?_, hb1, hb2⟩
  · intro hle
    simp only [Option.map_some']
    have hif : (if 0 < tc - tp then
        calculateDistance p.latitude p.longitude c.latitude c.longitude /
          ((tc - tp : ℤ) : ℝ) * 1000 else 0) = 0 := if_neg (not_lt.2 hle)
    show some (round2 ((if 0 < tc - tp then
        calculateDistance p.latitude p.longitude c.latitude c.longitude /
          ((tc - tp : ℤ) : ℝ) * 1000 else 0) * 3.6)) = some 0
    rw [hif]
    norm_num [round2, jsRound]
  · intro hpos
    simp only [Option.map_some']
    have hif : (if 0 < tc - tp then
        calculateDistance p.latitude p.longitude c.latitude c.longitude /
          ((tc - tp : ℤ) : ℝ) * 1000 else 0) =
        calculateDistance p.latitude p.longitude c.latitude c.longitude /
          ((tc - tp : ℤ) : ℝ) * 1000 := if_pos hpos
    show some (round2 ((if 0 < tc - tp then
        calculateDistance p.latitude p.longitude c.latitude c.longitude /
          ((tc - tp : ℤ) : ℝ) * 1000 else 0) * 3.6)) =
      some (round2 (calculateDistance p.latitude p.longitude c.latitude c.longitude /
        (((tc - tp : ℤ) : ℝ) / 1000) * 3.6))
    rw [hif]
    have harg : calculateDistance p.latitude p.longitude c.latitude c.longitude /
        (((tc - tp : ℤ) : ℝ) / 1000) * 3.6 =
        calculateDistance p.latitude p.longitude c.latitude c.longitude /
          ((tc - tp : ℤ) : ℝ) * 1000 * 3.6 := by
      rw [div_div_eq_mul_div]
      ring
    rw [harg]

/-- Witness for the amended C6 theorem at a concrete coordinate pair. -/
theorem analyzeMovement_amended_witness :
    ((1:ℝ) ≠ 0 ∧ (3:ℝ) ≠ 0) ∧
    ((analyzeMovement ⟨some ⟨1, 2⟩, 0⟩ ⟨some ⟨3, 4⟩, 1000⟩).isSome = true ∧
      ((1000:ℤ) - 0 ≤ 0 →
        (analyzeMovement ⟨some ⟨1, 2⟩, 0⟩ ⟨some ⟨3, 4⟩, 1000⟩).map MovementResult.speed =
          some 0) ∧
      (0 < (1000:ℤ) - 0 →
        (analyzeMovement ⟨some ⟨1, 2⟩, 0⟩ ⟨some ⟨3, 4⟩, 1000⟩).map MovementResult.speed =
          some (round2 (calculateDistance 1 2 3 4 /
            ((((1000:ℤ) - 0 : ℤ) : ℝ) / 1000) * 3.6))) ∧
      0 ≤ calculateDistance 1 2 3 4 ∧
      calculateDistance 1 2 3 4 ≤ 6371000 * Real.pi) :=
  ⟨⟨by norm_num, by norm_num⟩,
    analyzeMovement_amended ⟨1, 2⟩ ⟨3, 4⟩ 0 1000 (by norm_num) (by norm_num)⟩

/-- Claim C9: the movement analyzer performs no latitude/longitude
range validation — with both latitudes equal to the out-of-range value
200 it still produces a MovementResult instead of rejecting the
coordinate, contradicting the fail-fast requirement of the spec. -/
theorem analyzeMovement_out_of_range_accepted :
    (analyzeMovement ⟨some ⟨200, 0⟩, 0⟩ ⟨some ⟨200, 0⟩, 1000⟩).isSome = true := by
  rw [analyzeMovement_some_eval ⟨200, 0⟩ ⟨200, 0⟩ 0 1000 (by norm_num) (by norm_num)]
  rfl
